import Mathlib

/-!
Verification development for the city-explorer place-collection pipeline
(`src/city_explorer/maps.py`).  The Python source is shallowly embedded:
pure helpers become Lean functions, the external googlemaps provider is
modelled by explicit response parameters, fallible code returns
`Option`/`Except`, and machine behaviour (MD5, UTF-8) is implemented
executably over `Nat` bytes.
-/

set_option maxRecDepth 10000

namespace CityExplorer

/-- Structural worker for `chunkedIterable`: the first argument is fuel,
only there to make the recursion structural (so that the kernel can
evaluate the function); any fuel of at least the length of the list gives
the same result (`chunkedGo_fuel_irrel`). -/
def chunkedGo : Nat → List α → Nat → List (List α)
  | _, [], _ => []
  | _, _ :: _, 0 => []
  | 0, _ :: _, _ + 1 => []
  | fuel + 1, x :: xs, n + 1 => (x :: xs.take n) :: chunkedGo fuel (xs.drop n) (n + 1)

/-- Embeds `_chunked_iterable(iterable, size)` from maps.py: repeatedly slice
off `size` elements; an empty slice (end of input, or `size = 0`) stops the
generator.  Each step consumes at least one element, so fuel equal to the
length of the list suffices. -/
def chunkedIterable (l : List α) (size : Nat) : List (List α) :=
  chunkedGo l.length l size

/-! ### MD5 (model of `hashlib.md5(...).hexdigest()`)

The repository calls the standard library `hashlib.md5`; we embed the MD5
algorithm (RFC 1321) executably over lists of byte values (`Nat < 256`),
with 32-bit words represented as `Nat` reduced modulo `2 ^ 32`. -/

/-- The 64 MD5 sine-derived round constants. -/
def mdK : List Nat :=
  [0xd76aa478, 0xe8c7b756, 0x242070db, 0xc1bdceee,
   0xf57c0faf, 0x4787c62a, 0xa8304613, 0xfd469501,
   0x698098d8, 0x8b44f7af, 0xffff5bb1, 0x895cd7be,
   0x6b901122, 0xfd987193, 0xa679438e, 0x49b40821,
   0xf61e2562, 0xc040b340, 0x265e5a51, 0xe9b6c7aa,
   0xd62f105d, 0x02441453, 0xd8a1e681, 0xe7d3fbc8,
   0x21e1cde6, 0xc33707d6, 0xf4d50d87, 0x455a14ed,
   0xa9e3e905, 0xfcefa3f8, 0x676f02d9, 0x8d2a4c8a,
   0xfffa3942, 0x8771f681, 0x6d9d6122, 0xfde5380c,
   0xa4beea44, 0x4bdecfa9, 0xf6bb4b60, 0xbebfbc70,
   0x289b7ec6, 0xeaa127fa, 0xd4ef3085, 0x04881d05,
   0xd9d4d039, 0xe6db99e5, 0x1fa27cf8, 0xc4ac5665,
   0xf4292244, 0x432aff97, 0xab9423a7, 0xfc93a039,
   0x655b59c3, 0x8f0ccc92, 0xffeff47d, 0x85845dd1,
   0x6fa87e4f, 0xfe2ce6e0, 0xa3014314, 0x4e0811a1,
   0xf7537e82, 0xbd3af235, 0x2ad7d2bb, 0xeb86d391]

/-- The 64 MD5 per-round left-rotation amounts. -/
def mdS : List Nat :=
  [7, 12, 17, 22, 7, 12, 17, 22, 7, 12, 17, 22, 7, 12, 17, 22,
   5, 9, 14, 20, 5, 9, 14, 20, 5, 9, 14, 20, 5, 9, 14, 20,
   4, 11, 16, 23, 4, 11, 16, 23, 4, 11, 16, 23, 4, 11, 16, 23,
   6, 10, 15, 21, 6, 10, 15, 21, 6, 10, 15, 21, 6, 10, 15, 21]

def mask32 : Nat := 0xffffffff

/-- Left-rotate a 32-bit word (a `Nat` below `2 ^ 32`) by `s` bits. -/
def rotl32 (x s : Nat) : Nat :=
  ((x <<< s) % 4294967296) ||| (x >>> (32 - s))

/-- The MD5 round mixing function (F, G, H, I by round group). -/
def md5F (i b c d : Nat) : Nat :=
  if i < 16 then (b &&& c) ||| ((b ^^^ mask32) &&& d)
  else if i < 32 then (d &&& b) ||| ((d ^^^ mask32) &&& c)
  else if i < 48 then b ^^^ c ^^^ d
  else c ^^^ (b ||| (d ^^^ mask32))

/-- The MD5 message-word index schedule. -/
def md5G (i : Nat) : Nat :=
  if i < 16 then i
  else if i < 32 then (5 * i + 1) % 16
  else if i < 48 then (3 * i + 5) % 16
  else (7 * i) % 16

/-- One MD5 round on the state `(a, b, c, d)` with message words `M`. -/
def md5Step (M : List Nat) (st : Nat × Nat × Nat × Nat) (i : Nat) :
    Nat × Nat × Nat × Nat :=
  let (a, b, c, d) := st
  let f := (md5F i b c d + a + mdK.getD i 0 + M.getD (md5G i) 0) % 4294967296
  (d, (b + rotl32 f (mdS.getD i 0)) % 4294967296, b, c)

/-- Little-endian 32-bit word from (up to) 4 bytes. -/
def leWord (bs : List Nat) : Nat :=
  bs.foldr (fun b acc => acc * 256 + b) 0

/-- Process one 64-byte block. -/
def md5Block (st : Nat × Nat × Nat × Nat) (block : List Nat) :
    Nat × Nat × Nat × Nat :=
  let M := (chunkedIterable block 4).map leWord
  let (a0, b0, c0, d0) := st
  let (a, b, c, d) := (List.range 64).foldl (md5Step M) st
  ((a0 + a) % 4294967296, (b0 + b) % 4294967296,
   (c0 + c) % 4294967296, (d0 + d) % 4294967296)

/-- The 4 bytes of a 32-bit word, little-endian. -/
def leBytes4 (n : Nat) : List Nat :=
  [n % 256, n / 256 % 256, n / 65536 % 256, n / 16777216 % 256]

/-- The 8 bytes of a 64-bit value, little-endian. -/
def leBytes8 (n : Nat) : List Nat :=
  leBytes4 (n % 4294967296) ++ leBytes4 (n / 4294967296 % 4294967296)

/-- MD5 padding: a 0x80 byte, zeros to 56 mod 64, then the bit length. -/
def md5Pad (msg : List Nat) : List Nat :=
  msg ++ [128] ++ List.replicate ((56 + 64 - (msg.length + 1) % 64) % 64) 0
      ++ leBytes8 ((8 * msg.length) % 18446744073709551616)

/-- Serialise the final state as 16 digest bytes, little-endian per word. -/
def md5Finish (st : Nat × Nat × Nat × Nat) : List Nat :=
  leBytes4 st.1 ++ leBytes4 st.2.1 ++ leBytes4 st.2.2.1 ++ leBytes4 st.2.2.2

/-- The 16-byte MD5 digest of a byte sequence. -/
def md5Bytes (msg : List Nat) : List Nat :=
  md5Finish ((chunkedIterable (md5Pad msg) 64).foldl md5Block
    (0x67452301, 0xefcdab89, 0x98badcfe, 0x10325476))

/-- Lowercase hexadecimal digit for a value below 16. -/
def hexDigitChar (n : Nat) : Char :=
  if n < 10 then Char.ofNat (48 + n) else Char.ofNat (87 + n)

/-- Two lowercase hex characters for one byte. -/
def byteToHexChars (b : Nat) : List Char :=
  [hexDigitChar (b / 16 % 16), hexDigitChar (b % 16)]

/-- The sixteen lowercase hexadecimal digits. -/
def hexLowerChars : List Char := "0123456789abcdef".data

/-- `hashlib.md5(bytes).hexdigest()`: the digest as 32 lowercase hex chars. -/
def md5Hexdigest (msg : List Nat) : String :=
  String.mk ((md5Bytes msg).map byteToHexChars).flatten

/-- UTF-8 encoding of one Unicode code point as bytes. -/
def utf8EncodeCp (c : Nat) : List Nat :=
  if c < 128 then [c]
  else if c < 2048 then [192 + c / 64, 128 + c % 64]
  else if c < 65536 then [224 + c / 4096, 128 + c / 64 % 64, 128 + c % 64]
  else [240 + c / 262144, 128 + c / 4096 % 64, 128 + c / 64 % 64, 128 + c % 64]

/-- `str.encode("utf-8")` as a byte list. -/
def strBytes (s : String) : List Nat :=
  (s.data.map (fun ch => utf8EncodeCp ch.toNat)).flatten

/-- `s.replace(",", "").replace(" ", "")`: drop every comma and space. -/
def stripCommasSpaces (s : String) : String :=
  String.mk (s.data.filter (fun ch => !(ch == ',' || ch == ' ')))

/-- The id computation of `MapsData._create_place_record` (maps.py lines
88-92): concatenate place id, place type and district name, strip commas and
spaces, and take the MD5 hexdigest of the UTF-8 bytes. -/
def recordIdentity (place_id place_type district_name : String) : String :=
  md5Hexdigest (strBytes (stripCommasSpaces (place_id ++ place_type ++ district_name)))

/-! ### Data model

Coordinates and ratings are floating-point numbers in the source; the
pipeline never computes on them (it only forwards them to and from the
provider), so they are modelled as opaque `Int` values.  Distance values
(`d["distance"]["value"]`, integer metres) are `Nat`. -/

/-- One entry of a `places` response `results` array: the provider fields
`_create_place_record` reads. -/
structure RawPlace where
  place_id : String
  name : String
  formatted_address : String
  rating : Option Int
  user_ratings_total : Option Int
  lat : Int
  lng : Int
deriving DecidableEq

/-- The flattened dictionary built by `MapsData._create_place_record`. -/
structure PlaceRecord where
  name : String
  formatted_address : String
  rating : Option Int
  user_ratings_total : Option Int
  id : String
  gmaps_place_id : String
  location_lat : Int
  location_lng : Int
  query_place_type : String
  query_district_name : String
  distance_from_center : Option Nat := none
deriving DecidableEq

/-- Embeds `MapsData._create_place_record(place, place_type, district_name)`
(maps.py lines 72-98): project the passthrough fields, derive the record id,
and denormalise the query onto the record. -/
def create_place_record (place : RawPlace) (place_type district_name : String) :
    PlaceRecord :=
  { name := place.name
    formatted_address := place.formatted_address
    rating := place.rating
    user_ratings_total := place.user_ratings_total
    id := recordIdentity place.place_id place_type district_name
    gmaps_place_id := place.place_id
    location_lat := place.lat
    location_lng := place.lng
    query_place_type := place_type
    query_district_name := district_name
    distance_from_center := none }

/-- One response of `gmaps.places`: a page of results, with the key
`next_page_token` present (`some token`) or absent (`none`). -/
structure Page where
  results : List RawPlace
  next_page_token : Option String

/-! ### Pagination loop of `MapsData.get_places_table` (maps.py lines 52-66)

The provider is modelled as a stream `pages : Nat → Page`: the k-th
`gmaps.places` request of the run returns `pages k` (the loop treats the
continuation token as opaque, so only its presence matters).  The loop is
embedded with explicit fuel: `none` means the fuel ran out before the loop
exited, i.e. the run did not terminate within that many requests.  The
`time.sleep(2)` pause has no effect on the computed table and is not
modelled. -/

/-- The `while "next_page_token" in places` loop: starting from request
index `k`, while the current page carries a token, append its results (as
records) and fetch the next page; a page without a token exits the loop
without appending its results. -/
def collectPlacesLoop (pages : Nat → Page) (place_type district_name : String) :
    Nat → Nat → Option (List PlaceRecord)
  | 0, _ => none
  | fuel + 1, k =>
    match (pages k).next_page_token with
    | none => some []
    | some _ =>
      (collectPlacesLoop pages place_type district_name fuel (k + 1)).map
        (fun rest =>
          (pages k).results.map
            (fun pl => create_place_record pl place_type district_name) ++ rest)

/-! ### `MapsData._add_distances_from_center` (maps.py lines 100-134) -/

/-- Failure modes of `_add_distances_from_center`: `candidates[0]` on an
empty candidate list (the spec names this `UnresolvableDistrictError`), and
`distances[i]` past the end of the collected distance list. -/
inductive EnrichError
  | unresolvableDistrict
  | distanceIndexError
deriving DecidableEq

/-- `[(p["location_lat"], p["location_lng"]) for p in places_table]`. -/
def placeCoordinates (places_table : List PlaceRecord) : List (Int × Int) :=
  places_table.map (fun p => (p.location_lat, p.location_lng))

/-- The assignment loop `for i in range(len(places_table)):
places_table[i]["distance_from_center"] = distances[i]`; `none` models the
IndexError raised when the distance list is shorter than the record list. -/
def setDistances : List PlaceRecord → List Nat → Option (List PlaceRecord)
  | [], _ => some []
  | _ :: _, [] => none
  | p :: ps, d :: ds =>
    (setDistances ps ds).map
      (fun rest => { p with distance_from_center := some d } :: rest)

/-- Embeds `_add_distances_from_center(places_table, district_name)`.  The
provider is modelled by two parameters: `candidates` is the
`location["candidates"]` list returned by `gmaps.find_place` for the
district (each candidate reduced to its geometry coordinates), and
`distance_matrix center chunk` is the list of
`d["distance"]["value"]` entries of `rows[0]["elements"]` returned by
`gmaps.distance_matrix` for one batch of destinations. -/
def add_distances_from_center (candidates : List (Int × Int))
    (distance_matrix : Int × Int → List (Int × Int) → List Nat)
    (places_table : List PlaceRecord) : Except EnrichError (List PlaceRecord) :=
  match candidates with
  | [] => .error .unresolvableDistrict
  | center :: _ =>
    let distances :=
      ((chunkedIterable (placeCoordinates places_table) 25).map
        (fun chunk => distance_matrix center chunk)).flatten
    match setDistances places_table distances with
    | none => .error .distanceIndexError
    | some out => .ok out

/-- `MapsData.get_places_table`: the pagination loop followed by distance
enrichment (`none` again meaning the pagination loop never exited). -/
def get_places_table (pages : Nat → Page) (candidates : List (Int × Int))
    (distance_matrix : Int × Int → List (Int × Int) → List Nat) (fuel : Nat)
    (place_type district_name : String) :
    Option (Except EnrichError (List PlaceRecord)) :=
  (collectPlacesLoop pages place_type district_name fuel 0).map
    (fun places_table => add_distances_from_center candidates distance_matrix places_table)

/-! ### Response assembly and `main` (maps.py lines 137-179) -/

/-- JSON values, as built by the response dictionary (numeric leaves are the
opaque numeric passthroughs, modelled as `Int`). -/
inductive Json
  | null
  | bool (b : Bool)
  | num (n : Int)
  | str (s : String)
  | arr (elems : List Json)
  | obj (fields : List (String × Json))

/-- Key list of a JSON object. -/
def objKeys : Json → List String
  | .obj fields => fields.map Prod.fst
  | _ => []

/-- Value stored under a key of a JSON object. -/
def objLookup (j : Json) (key : String) : Option Json :=
  match j with
  | .obj fields => lookupField fields
  | _ => none
where lookupField : List (String × Json) → Option Json
  | [] => none
  | (k, v) :: rest => if k = key then some v else lookupField rest

/-- The place record as a JSON object (dictionary): optional provider fields
appear only when present, `distance_from_center` only after enrichment. -/
def placeRecordJson (p : PlaceRecord) : Json :=
  Json.obj
    ([("name", Json.str p.name), ("formatted_address", Json.str p.formatted_address)]
      ++ (match p.rating with
          | none => []
          | some r => [("rating", Json.num r)])
      ++ (match p.user_ratings_total with
          | none => []
          | some u => [("user_ratings_total", Json.num u)])
      ++ [("id", Json.str p.id), ("gmaps_place_id", Json.str p.gmaps_place_id),
          ("location_lat", Json.num p.location_lat),
          ("location_lng", Json.num p.location_lng),
          ("query_place_type", Json.str p.query_place_type),
          ("query_district_name", Json.str p.query_district_name)]
      ++ (match p.distance_from_center with
          | none => []
          | some d => [("distance_from_center", Json.num (Int.ofNat d))]))

/-- Embeds `_assemble_response_json(insert)` (maps.py lines 172-179) at the
JSON-value level; `json.dumps` serialisation is the identity on this
structure. -/
def assemble_response_json (insert : Json) : Json :=
  Json.obj
    [("state", Json.obj []),
     ("schema", Json.obj [("places", Json.obj [("primary_key", Json.arr [Json.str "id"])])]),
     ("insert", insert),
     ("hasMore", Json.bool false)]

/-- `itertools.product(place_types, district_names)`. -/
def product (xs : List α) (ys : List β) : List (α × β) :=
  xs.flatMap (fun x => ys.map (fun y => (x, y)))

/-- The accumulation loop of `main`: `places_table += get_places_table(...)`
pair by pair.  `getPlaces` models one full `get_places_table` call (search
plus enrichment); a raised exception is an `Except.error`, which propagates
and aborts the remaining pairs, exactly as an uncaught Python exception
leaves the `for` loop. -/
def collectPairs (getPlaces : String → String → Except ε (List PlaceRecord)) :
    List (String × String) → Except ε (List PlaceRecord)
  | [] => .ok []
  | pr :: rest =>
    match getPlaces pr.1 pr.2 with
    | .error e => .error e
    | .ok tbl =>
      match collectPairs getPlaces rest with
      | .error e => .error e
      | .ok acc => .ok (tbl ++ acc)

/-- Embeds `main` after configuration parsing: collect the Cartesian product
of place types and district names, then assemble the response envelope.  An
error anywhere surfaces as `Except.error` and no envelope is built. -/
def mainRun (getPlaces : String → String → Except ε (List PlaceRecord))
    (place_types district_names : List String) : Except ε Json :=
  match collectPairs getPlaces (product place_types district_names) with
  | .error e => .error e
  | .ok places_table =>
    .ok (assemble_response_json
      (Json.obj [("places", Json.arr (places_table.map placeRecordJson))]))

/-! ### Concrete fixtures (fake provider traces used as test inputs) -/

/-- A numbered provider result. -/
def demoRaw (n : Nat) : RawPlace :=
  { place_id := toString n
    name := toString n
    formatted_address := "somewhere"
    rating := none
    user_ratings_total := none
    lat := Int.ofNat n
    lng := 0 }

/-- The trace of the pagination-completeness test fixture: three pages of 10
results each, continuation tokens on the first two pages, none on the third
(results numbered 0-29 in page-then-in-page order). -/
def demoPages : Nat → Page
  | 0 => { results := (List.range 10).map demoRaw, next_page_token := some "token1" }
  | 1 => { results := (List.range 10).map (fun n => demoRaw (10 + n)),
           next_page_token := some "token2" }
  | _ => { results := (List.range 10).map (fun n => demoRaw (20 + n)),
           next_page_token := none }

/-- A provider trace whose very first page (10 results, numbered 0-9)
carries no continuation token. -/
def singlePageTrace : Nat → Page :=
  fun _ => { results := (List.range 10).map demoRaw, next_page_token := none }

/-- A misbehaving provider whose every page carries a continuation token. -/
def tokenForeverPages : Nat → Page :=
  fun _ => { results := [demoRaw 0], next_page_token := some "token" }

/-- A fixed place record used to instantiate universally quantified
statements at concrete inputs. -/
def dummyRecord : PlaceRecord :=
  { name := "A"
    formatted_address := "B"
    rating := none
    user_ratings_total := none
    id := "i"
    gmaps_place_id := "g"
    location_lat := 1
    location_lng := 2
    query_place_type := "Gym"
    query_district_name := "D"
    distance_from_center := none }

/-- A provider stub for the fail-fast scenario: the search for place type
"Park" raises, every other pair succeeds with an empty table. -/
def failingProvider : String → String → Except Unit (List PlaceRecord) :=
  fun place_type _ => if place_type = "Park" then .error () else .ok []

/-- Sixty records of one district, for the batching fixture. -/
def sixtyRecords : List PlaceRecord := List.replicate 60 dummyRecord

/-! ### Lemmas about `chunkedIterable` -/

theorem chunkedGo_nil (f n : Nat) : chunkedGo f ([] : List α) n = [] := by
  cases f <;> cases n <;> rfl

theorem chunkedGo_fuel_irrel :
    ∀ (f1 f2 : Nat) (l : List α) (n : Nat), l.length ≤ f1 → l.length ≤ f2 →
      chunkedGo f1 l n = chunkedGo f2 l n := by
  intro f1
  induction f1 with
  | zero =>
    intro f2 l n h1 _
    cases l with
    | nil => rw [chunkedGo_nil, chunkedGo_nil]
    | cons x xs => simp at h1
  | succ f1 ih =>
    intro f2 l n h1 h2
    cases l with
    | nil => rw [chunkedGo_nil, chunkedGo_nil]
    | cons x xs =>
      cases n with
      | zero => cases f2 with
        | zero => simp at h2
        | succ f2 => rfl
      | succ n =>
        cases f2 with
        | zero => simp at h2
        | succ f2 =>
          simp only [chunkedGo, List.cons.injEq, true_and]
          exact ih f2 (xs.drop n) (n + 1)
            (by simp only [List.length_drop]; simp at h1; omega)
            (by simp only [List.length_drop]; simp at h2; omega)

theorem chunkedIterable_cons_eq (l : List α) (n : Nat) (hl : l ≠ []) (hn : 0 < n) :
    chunkedIterable l n = l.take n :: chunkedIterable (l.drop n) n := by
  match l, n with
  | [], _ => exact absurd rfl hl
  | _ :: _, 0 => exact absurd hn (by omega)
  | x :: xs, m + 1 =>
    rw [List.take_succ_cons, List.drop_succ_cons]
    show chunkedGo (xs.length + 1) (x :: xs) (m + 1)
      = (x :: xs.take m) :: chunkedIterable (xs.drop m) (m + 1)
    simp only [chunkedGo, List.cons.injEq, true_and]
    exact chunkedGo_fuel_irrel xs.length (xs.drop m).length (xs.drop m) (m + 1)
      (by simp) le_rfl

theorem chunkedGo_flatten : ∀ (fuel : Nat) (l : List α) (n : Nat),
    l.length ≤ fuel → 0 < n → (chunkedGo fuel l n).flatten = l := by
  intro fuel
  induction fuel with
  | zero =>
    intro l n h1 _
    cases l with
    | nil => rw [chunkedGo_nil]; rfl
    | cons x xs => simp at h1
  | succ fuel ih =>
    intro l n h1 hn
    cases l with
    | nil => rw [chunkedGo_nil]; rfl
    | cons x xs =>
      cases n with
      | zero => omega
      | succ n =>
        simp only [chunkedGo, List.flatten_cons]
        rw [ih (xs.drop n) (n + 1) (by simp only [List.length_drop]; simp at h1; omega)
          (by omega)]
        simp [List.take_append_drop]

theorem chunkedIterable_flatten (l : List α) (n : Nat) (hn : 0 < n) :
    (chunkedIterable l n).flatten = l :=
  chunkedGo_flatten l.length l n le_rfl hn

theorem chunkedGo_mem_length : ∀ (fuel : Nat) (l : List α) (n : Nat) (c : List α),
    l.length ≤ fuel → 0 < n → c ∈ chunkedGo fuel l n → c ≠ [] ∧ c.length ≤ n := by
  intro fuel
  induction fuel with
  | zero =>
    intro l n c h1 _ hc
    cases l with
    | nil => rw [chunkedGo_nil] at hc; simp at hc
    | cons x xs => simp at h1
  | succ fuel ih =>
    intro l n c h1 hn hc
    cases l with
    | nil => rw [chunkedGo_nil] at hc; simp at hc
    | cons x xs =>
      cases n with
      | zero => omega
      | succ n =>
        simp only [chunkedGo, List.mem_cons] at hc
        rcases hc with rfl | hc
        · refine ⟨by simp, ?_⟩
          simp only [List.length_cons, List.length_take]
          omega
        · exact ih (xs.drop n) (n + 1) c
            (by simp only [List.length_drop]; simp at h1; omega) (by omega) hc

theorem chunkedIterable_mem_length (l : List α) (n : Nat) (hn : 0 < n)
    (c : List α) (hc : c ∈ chunkedIterable l n) : c ≠ [] ∧ c.length ≤ n :=
  chunkedGo_mem_length l.length l n c le_rfl hn hc

theorem chunkedGo_dropLast_length : ∀ (fuel : Nat) (l : List α) (n : Nat) (c : List α),
    l.length ≤ fuel → 0 < n → c ∈ (chunkedGo fuel l n).dropLast → c.length = n := by
  intro fuel
  induction fuel with
  | zero =>
    intro l n c h1 _ hc
    cases l with
    | nil => rw [chunkedGo_nil] at hc; simp at hc
    | cons x xs => simp at h1
  | succ fuel ih =>
    intro l n c h1 hn hc
    cases l with
    | nil => rw [chunkedGo_nil] at hc; simp at hc
    | cons x xs =>
      cases n with
      | zero => omega
      | succ n =>
        simp only [chunkedGo] at hc
        by_cases hrest : chunkedGo fuel (xs.drop n) (n + 1) = []
        · rw [hrest] at hc
          simp at hc
        · rw [List.dropLast_cons_of_ne_nil hrest, List.mem_cons] at hc
          rcases hc with rfl | hc
          · have hdrop : xs.drop n ≠ [] := by
              intro h
              exact hrest (by rw [h, chunkedGo_nil])
            have : n < xs.length := by
              by_contra h
              exact hdrop (List.drop_eq_nil_of_le (by omega))
            simp only [List.length_cons, List.length_take]
            omega
          · exact ih (xs.drop n) (n + 1) c
              (by simp only [List.length_drop]; simp at h1; omega) (by omega) hc

theorem chunkedIterable_dropLast_length (l : List α) (n : Nat) (hn : 0 < n)
    (c : List α) (hc : c ∈ (chunkedIterable l n).dropLast) : c.length = n :=
  chunkedGo_dropLast_length l.length l n c le_rfl hn hc

/-! ### Lemmas about `setDistances` and `add_distances_from_center` -/

theorem setDistances_eq_zipWith (ps : List PlaceRecord) (ds : List Nat)
    (h : ps.length ≤ ds.length) :
    setDistances ps ds
      = some (List.zipWith
          (fun p d => { p with distance_from_center := some d }) ps ds) := by
  induction ps generalizing ds with
  | nil => simp [setDistances]
  | cons p ps ih =>
    match ds with
    | [] => simp at h
    | d :: ds =>
      simp only [setDistances, List.zipWith_cons_cons,
        ih ds (by simpa using h), Option.map_some']

theorem zipWith_update_self_map (ps : List PlaceRecord) (g : PlaceRecord → Nat) :
    List.zipWith (fun p d => { p with distance_from_center := some d }) ps
        (ps.map g)
      = ps.map (fun p => { p with distance_from_center := some (g p) }) := by
  induction ps with
  | nil => simp
  | cons p ps ih => simp [ih]

theorem flatten_map_length_eq (chunks : List (List (Int × Int)))
    (f : List (Int × Int) → List Nat)
    (hf : ∀ ch, (f ch).length = ch.length) :
    ((chunks.map f).flatten).length = chunks.flatten.length := by
  induction chunks with
  | nil => simp
  | cons ch chunks ih => simp [hf, ih]

theorem mem_zipWith_update_isSome (ps : List PlaceRecord) (ds : List Nat)
    (r : PlaceRecord)
    (hr : r ∈ List.zipWith
      (fun p d => { p with distance_from_center := some d }) ps ds) :
    r.distance_from_center.isSome = true := by
  induction ps generalizing ds with
  | nil => simp at hr
  | cons p ps ih =>
    match ds with
    | [] => simp at hr
    | d :: ds =>
      simp only [List.zipWith_cons_cons, List.mem_cons] at hr
      rcases hr with rfl | hr
      · rfl
      · exact ih ds hr

theorem chunkedIterable_sizes_60 (l : List (Int × Int)) (h : l.length = 60) :
    (chunkedIterable l 25).map List.length = [25, 25, 10] := by
  have h0 : l ≠ [] := by
    intro hnil; rw [hnil] at h; simp at h
  have h1len : (l.drop 25).length = 35 := by simp [h]
  have h1 : l.drop 25 ≠ [] := by
    intro hnil; rw [hnil] at h1len; simp at h1len
  have h2len : ((l.drop 25).drop 25).length = 10 := by simp [h]
  have h2 : (l.drop 25).drop 25 ≠ [] := by
    intro hnil; rw [hnil] at h2len; simp at h2len
  have h3 : ((l.drop 25).drop 25).drop 25 = [] :=
    List.drop_eq_nil_of_le (by omega)
  rw [chunkedIterable_cons_eq l 25 h0 (by omega),
    chunkedIterable_cons_eq (l.drop 25) 25 h1 (by omega),
    chunkedIterable_cons_eq ((l.drop 25).drop 25) 25 h2 (by omega), h3]
  simp only [chunkedIterable, chunkedGo_nil, List.map_cons, List.map_nil,
    List.length_take, h, h1len, h2len]
  norm_num

/-- Claim C6: if the geocoding lookup returns no candidate, distance
enrichment fails with the unresolvable-district error and never returns an
enriched table, so no record receives a `distance_from_center` value. -/
theorem claim_C6_unresolvable_district
    (dm : Int × Int → List (Int × Int) → List Nat) (ps : List PlaceRecord) :
    add_distances_from_center [] dm ps = .error .unresolvableDistrict
      ∧ ∀ out, add_distances_from_center [] dm ps ≠ .ok out := by
  refine ⟨rfl, ?_⟩
  intro out h
  simp [add_distances_from_center] at h

/-- Claim C10: when the district resolves and every distance request answers
one element per submitted destination, enrichment succeeds, the output has
one record per input record, and every output record carries a
`distance_from_center` value (the assignment loop never runs out of
distances). -/
theorem claim_C10_enrichment_sets_all_distances
    (center : Int × Int) (rest : List (Int × Int))
    (dm : Int × Int → List (Int × Int) → List Nat) (ps : List PlaceRecord)
    (hdm : ∀ ch, (dm center ch).length = ch.length) :
    ∃ out, add_distances_from_center (center :: rest) dm ps = .ok out
      ∧ out.length = ps.length
      ∧ ∀ r ∈ out, r.distance_from_center.isSome = true := by
  have hlen : (((chunkedIterable (placeCoordinates ps) 25).map
      (fun chunk => dm center chunk)).flatten).length = ps.length := by
    rw [flatten_map_length_eq _ _ hdm,
      chunkedIterable_flatten (placeCoordinates ps) 25 (by omega)]
    simp [placeCoordinates]
  have hset := setDistances_eq_zipWith ps _ (le_of_eq hlen.symm)
  refine ⟨List.zipWith (fun p d => { p with distance_from_center := some d }) ps
    (((chunkedIterable (placeCoordinates ps) 25).map
      (fun chunk => dm center chunk)).flatten), ?_, ?_, ?_⟩
  · simp only [add_distances_from_center]
    rw [hset]
  · rw [List.length_zipWith]
    omega
  · intro r hr
    exact mem_zipWith_update_isSome ps _ r hr

/-- Claim C3: on 60 records of one district, the enricher issues exactly
three distance-matrix requests with destination batches of 25, 25 and 10 (in
that order), and after flattening, record i receives the distance the
provider returned for the i-th submitted coordinate. -/
theorem claim_C3_batching_and_alignment
    (ps : List PlaceRecord) (center : Int × Int) (rest : List (Int × Int))
    (dm : Int × Int → List (Int × Int) → List Nat) (dist : Int × Int → Nat)
    (h60 : ps.length = 60)
    (hdm : ∀ ch, dm center ch = ch.map dist) :
    (chunkedIterable (placeCoordinates ps) 25).map List.length = [25, 25, 10]
      ∧ add_distances_from_center (center :: rest) dm ps
          = .ok (ps.map (fun p =>
              { p with
                  distance_from_center := some (dist (p.location_lat, p.location_lng)) }))
      ∧ ∀ i, i < 60 →
          (ps.map (fun p =>
              { p with
                  distance_from_center := some (dist (p.location_lat, p.location_lng)) }))[i]?
            = ps[i]?.map (fun p =>
                { p with
                    distance_from_center := some (dist (p.location_lat, p.location_lng)) }) := by
  have hcoords : (placeCoordinates ps).length = 60 := by
    simp [placeCoordinates, h60]
  refine ⟨chunkedIterable_sizes_60 _ hcoords, ?_, ?_⟩
  · have hflat : ((chunkedIterable (placeCoordinates ps) 25).map
        (fun chunk => dm center chunk)).flatten
          = ps.map (fun p => dist (p.location_lat, p.location_lng)) := by
      simp only [hdm, ← List.map_flatten,
        chunkedIterable_flatten (placeCoordinates ps) 25 (by omega)]
      simp [placeCoordinates, List.map_map, Function.comp]
    have hset := setDistances_eq_zipWith ps
      (ps.map (fun p => dist (p.location_lat, p.location_lng))) (by simp)
    simp only [add_distances_from_center, hflat]
    rw [hset, zipWith_update_self_map]
  · intro i _
    simp [List.getElem?_map]

/-! ### Pagination: the while loop of `get_places_table` -/

theorem collectPlacesLoop_succ (pages : Nat → Page)
    (place_type district_name : String) (fuel k : Nat) :
    collectPlacesLoop pages place_type district_name (fuel + 1) k
      = match (pages k).next_page_token with
        | none => some []
        | some _ =>
          (collectPlacesLoop pages place_type district_name fuel (k + 1)).map
            (fun rest =>
              (pages k).results.map
                (fun pl => create_place_record pl place_type district_name) ++ rest) := rfl

theorem collectPlacesLoop_terminates (pages : Nat → Page)
    (place_type district_name : String) :
    ∀ n k, (pages (k + n)).next_page_token = none →
      ∃ r, collectPlacesLoop pages place_type district_name (n + 1) k = some r := by
  intro n
  induction n with
  | zero =>
    intro k hk
    refine ⟨[], ?_⟩
    rw [collectPlacesLoop_succ]
    rw [show k + 0 = k from rfl] at hk
    rw [hk]
  | succ n ih =>
    intro k hk
    cases htok : (pages k).next_page_token with
    | none =>
      refine ⟨[], ?_⟩
      rw [collectPlacesLoop_succ, htok]
    | some t =>
      obtain ⟨r, hr⟩ := ih (k + 1) (by rw [show k + 1 + n = k + (n + 1) from by omega]; exact hk)
      refine ⟨(pages k).results.map
        (fun pl => create_place_record pl place_type district_name) ++ r, ?_⟩
      rw [collectPlacesLoop_succ, htok, hr]
      rfl

theorem collectPlacesLoop_diverges (pages : Nat → Page)
    (place_type district_name : String)
    (htok : ∀ n, (pages n).next_page_token ≠ none) :
    ∀ fuel k, collectPlacesLoop pages place_type district_name fuel k = none := by
  intro fuel
  induction fuel with
  | zero => intro k; rfl
  | succ fuel ih =>
    intro k
    cases hk : (pages k).next_page_token with
    | none => exact absurd hk (htok k)
    | some t => rw [collectPlacesLoop_succ, hk, ih (k + 1)]; rfl

/-- Claim C8: the pagination loop terminates exactly when the provider
eventually serves a page without a continuation token; against a provider
that always returns a token, no amount of fuel makes the loop exit (the
reference behaviour has no page cap). -/
theorem claim_C8_loop_termination (pages : Nat → Page)
    (place_type district_name : String) :
    ((∃ n, (pages n).next_page_token = none) →
      ∃ fuel r, collectPlacesLoop pages place_type district_name fuel 0 = some r)
    ∧ ((∀ n, (pages n).next_page_token ≠ none) →
      ∀ fuel, collectPlacesLoop pages place_type district_name fuel 0 = none) := by
  constructor
  · rintro ⟨n, hn⟩
    obtain ⟨r, hr⟩ := collectPlacesLoop_terminates pages place_type district_name n 0
      (by simpa using hn)
    exact ⟨n + 1, r, hr⟩
  · intro htok fuel
    exact collectPlacesLoop_diverges pages place_type district_name htok fuel 0

/-- Witness for claim C8 on concrete traces: the three-page fixture
terminates, the always-token provider never does. -/
theorem claim_C8_loop_termination_witness :
    (∃ fuel r, collectPlacesLoop demoPages "Restaurant" "D" fuel 0 = some r)
    ∧ ∀ fuel, collectPlacesLoop tokenForeverPages "Restaurant" "D" fuel 0 = none := by
  constructor
  · exact (claim_C8_loop_termination demoPages "Restaurant" "D").1 ⟨2, rfl⟩
  · exact (claim_C8_loop_termination tokenForeverPages "Restaurant" "D").2
      (fun n => by simp [tokenForeverPages])

/-- Claim C1 (code bug): on the three-page fixture (10 results per page,
tokens on pages 1 and 2, none on page 3) the loop returns the 20 records of
the first two pages and drops the final token-less page, because the
`while "next_page_token" in places` test runs before the append; the spec
requires all 30.  With a single token-less page the loop returns no records
at all, contradicting the docstring of `get_places_table`. -/
theorem claim_C1_final_page_dropped :
    (collectPlacesLoop demoPages "Restaurant" "Neuehrenfeld, Cologne, Germany" 10 0).map
        List.length = some 20
    ∧ collectPlacesLoop singlePageTrace "Restaurant" "Neuehrenfeld, Cologne, Germany" 10 0
        = some [] := by
  constructor
  · rfl
  · rfl

/-! ### Record identity: digest shape, determinism, collisions -/

theorem leBytes4_mem_lt (n : Nat) : ∀ b ∈ leBytes4 n, b < 256 := by
  intro b hb
  simp only [leBytes4, List.mem_cons, List.not_mem_nil, or_false] at hb
  rcases hb with rfl | rfl | rfl | rfl <;> exact Nat.mod_lt _ (by omega)

theorem md5Finish_mem_lt (st : Nat × Nat × Nat × Nat) :
    ∀ b ∈ md5Finish st, b < 256 := by
  intro x hx
  simp only [md5Finish, List.mem_append] at hx
  rcases hx with ((hx | hx) | hx) | hx <;> exact leBytes4_mem_lt _ x hx

theorem md5Bytes_length (msg : List Nat) : (md5Bytes msg).length = 16 := by
  simp [md5Bytes, md5Finish, leBytes4]

theorem md5Bytes_mem_lt (msg : List Nat) : ∀ b ∈ md5Bytes msg, b < 256 := by
  simp only [md5Bytes]
  exact md5Finish_mem_lt _

theorem flatten_byteToHexChars_length (bs : List Nat) :
    ((bs.map byteToHexChars).flatten).length = 2 * bs.length := by
  induction bs with
  | nil => simp
  | cons b bs ih =>
    simp only [List.map_cons, List.flatten_cons, List.length_append, ih,
      byteToHexChars, List.length_cons, List.length_nil]
    omega

theorem hexDigitChar_mem (n : Nat) (h : n < 16) : hexDigitChar n ∈ hexLowerChars := by
  interval_cases n <;> decide

theorem mem_flatten_byteToHexChars (bs : List Nat) (ch : Char)
    (h : ch ∈ (bs.map byteToHexChars).flatten) : ch ∈ hexLowerChars := by
  simp only [List.mem_flatten, List.mem_map] at h
  obtain ⟨l, ⟨b, hb, rfl⟩, hch⟩ := h
  simp only [byteToHexChars, List.mem_cons, List.not_mem_nil, or_false] at hch
  rcases hch with rfl | rfl
  · exact hexDigitChar_mem _ (Nat.mod_lt _ (by omega))
  · exact hexDigitChar_mem _ (Nat.mod_lt _ (by omega))

/-- Claim C4: the record id is the lowercase hex rendering of the 128-bit
(16-byte) MD5 digest of the three strings concatenated in order with all
spaces and commas removed: it always has 32 characters, all of them
lowercase hex digits, and as a pure function it returns the identical string
on repeated calls. -/
theorem claim_C4_identity_digest_shape (pid cat dn : String) :
    recordIdentity pid cat dn
        = md5Hexdigest (strBytes (stripCommasSpaces (pid ++ cat ++ dn)))
    ∧ (recordIdentity pid cat dn).length = 32
    ∧ (∀ ch ∈ (recordIdentity pid cat dn).data, ch ∈ hexLowerChars)
    ∧ (md5Bytes (strBytes (stripCommasSpaces (pid ++ cat ++ dn)))).length = 16
    ∧ (∀ b ∈ md5Bytes (strBytes (stripCommasSpaces (pid ++ cat ++ dn))), b < 256)
    ∧ recordIdentity pid cat dn = recordIdentity pid cat dn := by
  refine ⟨rfl, ?_, ?_, md5Bytes_length _, md5Bytes_mem_lt _, rfl⟩
  · show (String.mk ((md5Bytes _).map byteToHexChars).flatten).length = 32
    simp only [String.length, List.length, flatten_byteToHexChars_length,
      md5Bytes_length]
  · intro ch hch
    exact mem_flatten_byteToHexChars _ ch hch

/-- Witness for claim C4 at the triple from the spec, together with the
concrete digest value. -/
theorem claim_C4_identity_digest_shape_witness :
    (recordIdentity "P1" "Gym" "Sülz, Cologne, Germany").length = 32
    ∧ recordIdentity "P1" "Gym" "Sülz, Cologne, Germany"
        = "33dd58d6afd4ac2da49bfe4e3c341681" := by
  refine ⟨(claim_C4_identity_digest_shape "P1" "Gym" "Sülz, Cologne, Germany").2.1, ?_⟩
  decide

/-- Counterexample for claim C2: stripping whitespace removes the boundary
information, so the genuinely different triples ("A B", "C", "D") and
("AB", "C", "D") receive the same id. -/
theorem claim_C2_stripping_collision :
    recordIdentity "A B" "C" "D" = recordIdentity "AB" "C" "D"
    ∧ ("A B", "C", "D") ≠ (("AB" : String), ("C" : String), ("D" : String)) :=
  ⟨rfl, by decide⟩

/-- Claim C2 as amended: the three example ids are pairwise distinct, but
whitespace/comma stripping can collide genuinely different triples — any two
triples whose concatenations agree after removing spaces and commas receive
the same id. -/
theorem claim_C2_discrimination_amended :
    recordIdentity "P1" "Gym" "Sülz" ≠ recordIdentity "P1" "Park" "Sülz"
    ∧ recordIdentity "P1" "Gym" "Sülz" ≠ recordIdentity "P1" "Gym" "Zollstock"
    ∧ recordIdentity "P1" "Park" "Sülz" ≠ recordIdentity "P1" "Gym" "Zollstock"
    ∧ ∀ p1 c1 d1 p2 c2 d2 : String,
        stripCommasSpaces (p1 ++ c1 ++ d1) = stripCommasSpaces (p2 ++ c2 ++ d2) →
        recordIdentity p1 c1 d1 = recordIdentity p2 c2 d2 := by
  refine ⟨by decide, by decide, by decide, ?_⟩
  intro p1 c1 d1 p2 c2 d2 h
  unfold recordIdentity
  rw [h]

/-- Witness for the amended claim C2: a collision obtained through the
stripped-concatenation hypothesis at concrete inputs. -/
theorem claim_C2_discrimination_amended_witness :
    recordIdentity "P 1" "Gym" "Sülz" = recordIdentity "P1" "Gym" "Sülz" :=
  claim_C2_discrimination_amended.2.2.2 "P 1" "Gym" "Sülz" "P1" "Gym" "Sülz" (by decide)

/-! ### Claim theorems: chunking, witnesses, envelope, fail-fast -/

/-- Claim C9: for a positive chunk size, concatenating the chunks in order
restores the original list, every chunk is non-empty of length at most the
size, and every chunk except possibly the last has length exactly the
size. -/
theorem claim_C9_chunk_partition (l : List α) (n : Nat) (hn : 0 < n) :
    (chunkedIterable l n).flatten = l
    ∧ (∀ c ∈ chunkedIterable l n, c ≠ [] ∧ c.length ≤ n)
    ∧ ∀ c ∈ (chunkedIterable l n).dropLast, c.length = n :=
  ⟨chunkedIterable_flatten l n hn,
   fun c hc => chunkedIterable_mem_length l n hn c hc,
   fun c hc => chunkedIterable_dropLast_length l n hn c hc⟩

/-- Witness for claim C9 on a concrete list and size. -/
theorem claim_C9_chunk_partition_witness :
    (0 < 2)
    ∧ ((chunkedIterable [10, 11, 12, 13, 14] 2).flatten = [10, 11, 12, 13, 14]
      ∧ (∀ c ∈ chunkedIterable [10, 11, 12, 13, 14] 2, c ≠ [] ∧ c.length ≤ 2)
      ∧ ∀ c ∈ (chunkedIterable [10, 11, 12, 13, 14] 2).dropLast, c.length = 2) :=
  ⟨by decide, claim_C9_chunk_partition [10, 11, 12, 13, 14] 2 (by decide)⟩

/-- Witness for claim C3 on the sixty-record fixture with a constant
distance provider. -/
theorem claim_C3_batching_and_alignment_witness :
    (chunkedIterable (placeCoordinates sixtyRecords) 25).map List.length
      = [25, 25, 10] :=
  (claim_C3_batching_and_alignment sixtyRecords (0, 0) []
    (fun _ ch => ch.map (fun _ => 7)) (fun _ => 7)
    (by decide) (fun ch => rfl)).1

/-- Witness for claim C10 on the sixty-record fixture. -/
theorem claim_C10_enrichment_sets_all_distances_witness :
    ∃ out, add_distances_from_center [(0, 0)]
        (fun _ ch => ch.map (fun _ => 7)) sixtyRecords = .ok out
      ∧ out.length = sixtyRecords.length
      ∧ ∀ r ∈ out, r.distance_from_center.isSome = true :=
  claim_C10_enrichment_sets_all_distances (0, 0) []
    (fun _ ch => ch.map (fun _ => 7)) sixtyRecords (fun ch => by simp)

/-- Witness for claim C6 at concrete inputs. -/
theorem claim_C6_unresolvable_district_witness :
    add_distances_from_center [] (fun _ _ => []) [dummyRecord]
      = .error .unresolvableDistrict :=
  (claim_C6_unresolvable_district (fun _ _ => []) [dummyRecord]).1

/-- Claim C7: the assembled envelope has exactly the keys state, schema,
insert and hasMore; state is the empty object, schema declares the places
primary key id, insert carries the given record list, hasMore is always
false; on the empty record list the envelope is the concrete object from
the spec. -/
theorem claim_C7_envelope_shape (records : List Json) :
    objKeys (assemble_response_json (Json.obj [("places", Json.arr records)]))
        = ["state", "schema", "insert", "hasMore"]
    ∧ objLookup (assemble_response_json (Json.obj [("places", Json.arr records)]))
        "state" = some (Json.obj [])
    ∧ objLookup (assemble_response_json (Json.obj [("places", Json.arr records)]))
        "schema" = some (Json.obj
          [("places", Json.obj [("primary_key", Json.arr [Json.str "id"])])])
    ∧ objLookup (assemble_response_json (Json.obj [("places", Json.arr records)]))
        "insert" = some (Json.obj [("places", Json.arr records)])
    ∧ objLookup (assemble_response_json (Json.obj [("places", Json.arr records)]))
        "hasMore" = some (Json.bool false)
    ∧ assemble_response_json (Json.obj [("places", Json.arr [])])
        = Json.obj
            [("state", Json.obj []),
             ("schema", Json.obj
               [("places", Json.obj [("primary_key", Json.arr [Json.str "id"])])]),
             ("insert", Json.obj [("places", Json.arr [])]),
             ("hasMore", Json.bool false)] :=
  ⟨rfl, rfl, rfl, rfl, rfl, rfl⟩

/-! ### Fail-fast propagation in `main` -/

theorem collectPairs_error_of_mem (g : String → String → Except ε (List PlaceRecord))
    (pairs : List (String × String)) (pr : String × String) (e : ε)
    (hmem : pr ∈ pairs) (he : g pr.1 pr.2 = .error e) :
    ∃ e2, collectPairs g pairs = .error e2 := by
  induction pairs with
  | nil => simp at hmem
  | cons q rest ih =>
    rcases List.mem_cons.mp hmem with rfl | hmem2
    · exact ⟨e, by simp [collectPairs, he]⟩
    · cases hq : g q.1 q.2 with
      | error e3 => exact ⟨e3, by simp [collectPairs, hq]⟩
      | ok tbl =>
        obtain ⟨e2, h2⟩ := ih hmem2
        exact ⟨e2, by simp [collectPairs, hq, h2]⟩

theorem collectPairs_prefix_error (g : String → String → Except ε (List PlaceRecord))
    (pre : List (String × String)) (bad : String × String)
    (post : List (String × String)) (e : ε)
    (hpre : ∀ p ∈ pre, ∃ r, g p.1 p.2 = .ok r) (hbad : g bad.1 bad.2 = .error e) :
    collectPairs g (pre ++ bad :: post) = .error e := by
  induction pre with
  | nil => simp [collectPairs, hbad]
  | cons q pre ih =>
    obtain ⟨r, hr⟩ := hpre q (by simp)
    have hrec := ih (fun p hp => hpre p (by simp [hp]))
    simp [collectPairs, hr, hrec]

/-- Claim C5: if the processing of any (place type, district) pair raises,
the whole run errors out and no envelope is assembled; with the earlier
pairs succeeding, the error of the failing pair surfaces unchanged no
matter which pairs would have come later, and the run never returns an
assembled response. -/
theorem claim_C5_fail_fast (g : String → String → Except ε (List PlaceRecord))
    (place_types district_names : List String) :
    ((∃ pr ∈ product place_types district_names, ∃ e, g pr.1 pr.2 = .error e) →
      ∃ e, mainRun g place_types district_names = .error e)
    ∧ ∀ pre bad post e,
        product place_types district_names = pre ++ bad :: post →
        (∀ p ∈ pre, ∃ r, g p.1 p.2 = .ok r) →
        g bad.1 bad.2 = .error e →
        mainRun g place_types district_names = .error e
          ∧ ∀ resp, mainRun g place_types district_names ≠ .ok resp := by
  constructor
  · rintro ⟨pr, hmem, e, he⟩
    obtain ⟨e2, h2⟩ := collectPairs_error_of_mem g _ pr e hmem he
    exact ⟨e2, by simp [mainRun, h2]⟩
  · intro pre bad post e hprod hpre hbad
    have h := collectPairs_prefix_error g pre bad post e hpre hbad
    constructor
    · simp [mainRun, hprod, h]
    · intro resp hresp
      rw [mainRun, hprod, h] at hresp
      exact Except.noConfusion hresp

/-- Witness for claim C5: with the concrete failing provider, the run over
place types Gym and Park aborts with the Park error and yields no
response. -/
theorem claim_C5_fail_fast_witness :
    mainRun failingProvider ["Gym", "Park"] ["D"] = .error ()
    ∧ ∀ resp, mainRun failingProvider ["Gym", "Park"] ["D"] ≠ .ok resp :=
  (claim_C5_fail_fast failingProvider ["Gym", "Park"] ["D"]).2
    [("Gym", "D")] ("Park", "D") [] () rfl
    (fun p hp => by
      simp only [List.mem_singleton] at hp
      subst hp
      exact ⟨[], rfl⟩)
    rfl

end CityExplorer
